import Mathlib

/-!
Verification of a GitHub repository-provisioning script (`src/main.py`).

The script is a linear pipeline: parse CLI arguments, check that the
`GITHUB_TOKEN` environment variable is present and the `--name` option set,
then create a repository, optionally rename the default branch, apply branch
protection, and add a `.gitignore` file, each via one HTTP request.

We embed the script shallowly: every request the script can send is a
`Request` value (method, URL, JSON body), every response is a `Response`
(status code plus the JSON fields the script reads), each `Repo` method is a
pair of Lean functions (one building the request, one mapping the response to
the printed message), and the `__main__` block is `mainRun`, a function from
the environment, the parsed arguments and a response oracle to the exit code,
the ordered list of requests issued and the ordered list of printed lines.
-/

/-- JSON values, as used in the request bodies the script serializes. -/
inductive JVal where
  | jNull : JVal
  | jBool : Bool → JVal
  | jNum : Nat → JVal
  | jStr : String → JVal
  | jArr : List JVal → JVal
  | jObj : List (String × JVal) → JVal
deriving Repr

/-- Field lookup in a JSON object; `none` on non-objects or missing keys. -/
def JVal.getField (j : JVal) (k : String) : Option JVal :=
  match j with
  | .jObj fields => fields.lookup k
  | _ => none

/-- HTTP methods the script uses (`requests.post` / `requests.patch` /
`requests.put`). -/
inductive Method where
  | post : Method
  | patch : Method
  | put : Method
deriving Repr, DecidableEq

/-- One HTTP request as issued by the script: method, URL and JSON body. -/
structure Request where
  method : Method
  url : String
  body : JVal
deriving Repr

/-- The parts of an HTTP response the script inspects: the status code and
the `message` / `html_url` fields of the parsed JSON body. -/
structure Response where
  status : Nat
  message : String
  html_url : String
deriving Repr, DecidableEq

/-- Python's `"{}".format(x)` on an optional string: `None` prints as the
four-letter word `None`. -/
def pyStr : Option String → String
  | none => "None"
  | some s => s

/-- The `Repo` class state: organization (possibly absent on the CLI, hence
optional) and the computed repository name. -/
structure Repo where
  org : Option String
  repo_name : String
deriving Repr, DecidableEq

/-- `Repo.__init__`: stores the organization and derives the repository name
as `"repo-{}".format(repo_name)`. -/
def Repo.init (org : Option String) (repo_name : String) : Repo :=
  { org := org, repo_name := "repo-" ++ repo_name }

/-- Request built by `Repo.create_repo`: POST to `/user/repos` with the
repository-creation configuration. -/
def Repo.create_repo_req (r : Repo) (repo_description : String) : Request :=
  { method := .post
    url := "https://api.github.com/user/repos"
    body := .jObj [
      ("name", .jStr r.repo_name),
      ("description", .jStr repo_description),
      ("homepage", .jStr "https://github.com"),
      ("private", .jBool true),
      ("has_issues", .jBool true),
      ("has_projects", .jBool true),
      ("has_wiki", .jBool true),
      ("auto_init", .jBool true)] }

/-- Message printed by `Repo.create_repo` after the response arrives:
success on status 201, otherwise the remote error message. -/
def Repo.create_repo_out (resp : Response) : String :=
  if resp.status = 201 then "Created: " ++ resp.html_url
  else "Create repo error Message: " ++ resp.message

/-- Request built by `Repo.rename_branch`: POST to the branch-rename
endpoint with the new name. -/
def Repo.rename_branch_req (r : Repo) (old_name new_name : String) : Request :=
  { method := .post
    url := "https://api.github.com/repos/" ++ pyStr r.org ++ "/" ++ r.repo_name
      ++ "/branches/" ++ old_name ++ "/rename"
    body := .jObj [("new_name", .jStr new_name)] }

/-- Message printed by `Repo.rename_branch`: success on status 201,
otherwise the remote error message. -/
def Repo.rename_branch_out (new_name : String) (resp : Response) : String :=
  if resp.status = 201 then "Default branch is now: " ++ new_name
  else "Error Message: " ++ resp.message

/-- Request built by `Repo.update_default_branch`: PATCH on the repository
with the new default branch.  This method exists in the class but is never
invoked by the `__main__` pipeline. -/
def Repo.update_default_branch_req (r : Repo) (default_branch : String) : Request :=
  { method := .patch
    url := "https://api.github.com/repos/" ++ pyStr r.org ++ "/" ++ r.repo_name
    body := .jObj [("default_branch", .jStr default_branch)] }

/-- Message printed by `Repo.update_default_branch`: success on status 200,
otherwise the remote error message. -/
def Repo.update_default_branch_out (default_branch : String) (resp : Response) : String :=
  if resp.status = 200 then "Default branch is now: " ++ default_branch
  else "Error Message: " ++ resp.message

/-- Request built by `Repo.add_repo_collaborator`: PUT on the collaborator
endpoint with the permission. -/
def Repo.add_repo_collaborator_req (r : Repo) (username permission : String) : Request :=
  { method := .put
    url := "https://api.github.com/repos/" ++ pyStr r.org ++ "/" ++ r.repo_name
      ++ "/collaborators/" ++ username
    body := .jObj [("permission", .jStr permission)] }

/-- Message printed by `Repo.add_repo_collaborator`: status 200 reports the
user added, status 204 reports the user as already holding the permission,
anything else surfaces the remote error message. -/
def Repo.add_repo_collaborator_out (username permission : String) (resp : Response) : String :=
  if resp.status = 200 then
    username ++ " added to repo with permission: " ++ permission
  else if resp.status = 204 then
    username ++ " already has " ++ permission ++ " permissions"
  else "Error Message: " ++ resp.message

/-- Request built by `Repo.add_repo_team`: PUT on the team-repository
endpoint with the permission. -/
def Repo.add_repo_team_req (r : Repo) (team_name permission : String) : Request :=
  { method := .put
    url := "https://api.github.com/orgs/" ++ pyStr r.org ++ "/teams/" ++ team_name
      ++ "/repos/" ++ pyStr r.org ++ "/" ++ r.repo_name
    body := .jObj [("permission", .jStr permission)] }

/-- Message printed by `Repo.add_repo_team`: success on status 204,
otherwise the remote error message. -/
def Repo.add_repo_team_out (team_name permission : String) (resp : Response) : String :=
  if resp.status = 204 then team_name ++ " team added as " ++ permission
  else "Error Message: " ++ resp.message

/-- Base64 alphabet used by `base64.b64encode`. -/
def b64Table : List Char :=
  "ABCDEFGHIJKLMNOPQRSTUVWXYZabcdefghijklmnopqrstuvwxyz0123456789+/".data

/-- Character of the base64 alphabet at a 6-bit index. -/
def b64Char (n : Nat) : Char := b64Table.getD n 'A'

/-- Index of a character in the base64 alphabet. -/
def b64Index (c : Char) : Nat := b64Table.indexOf c

/-- Standard base64 encoding of a byte list, with `=` padding, as computed
by Python's `base64.b64encode`. -/
def b64EncodeBytes : List Nat → List Char
  | [] => []
  | [b0] =>
    let n := b0 * 65536
    [b64Char (n / 262144 % 64), b64Char (n / 4096 % 64), '=', '=']
  | [b0, b1] =>
    let n := b0 * 65536 + b1 * 256
    [b64Char (n / 262144 % 64), b64Char (n / 4096 % 64), b64Char (n / 64 % 64), '=']
  | b0 :: b1 :: b2 :: rest =>
    let n := b0 * 65536 + b1 * 256 + b2
    b64Char (n / 262144 % 64) :: b64Char (n / 4096 % 64) :: b64Char (n / 64 % 64)
      :: b64Char (n % 64) :: b64EncodeBytes rest

/-- Standard base64 decoding of a character list back to bytes, honouring
`=` padding: the inverse direction of `base64.b64encode`. -/
def b64DecodeChars : List Char → List Nat
  | c0 :: c1 :: c2 :: c3 :: rest =>
    if c2 = '=' then
      [b64Index c0 * 4 + b64Index c1 / 16]
    else if c3 = '=' then
      [b64Index c0 * 4 + b64Index c1 / 16,
       b64Index c1 % 16 * 16 + b64Index c2 / 4]
    else
      (b64Index c0 * 4 + b64Index c1 / 16)
        :: (b64Index c1 % 16 * 16 + b64Index c2 / 4)
        :: (b64Index c2 % 4 * 64 + b64Index c3)
        :: b64DecodeChars rest
  | _ => []

/-- UTF-8 bytes of a string; the script's payloads are pure ASCII, where
each character is one byte equal to its code point. -/
def strBytes (s : String) : List Nat := s.data.map Char.toNat

/-- Python's `base64.b64encode(s.encode()).decode()` on an ASCII string. -/
def b64encode (s : String) : String := String.mk (b64EncodeBytes (strBytes s))

/-- The inverse of base64 on an ASCII payload, returning the decoded text. -/
def b64decodeToString (s : String) : String :=
  String.mk ((b64DecodeChars s.data).map Char.ofNat)

/-- The fixed `.gitignore` content hardcoded in `Repo.add_gitignore_to_repo`. -/
def gitignore_content : String :=
  ".terraform\n.terraform.tfstate\n*.tfstate*\n*.zip*\n.idea\n.secret.auto.tfvars"

/-- Request built by `Repo.add_gitignore_to_repo`: PUT on the contents
endpoint for `.gitignore`, with the base64-encoded fixed payload. -/
def Repo.add_gitignore_req (r : Repo) : Request :=
  { method := .put
    url := "https://api.github.com/repos/" ++ pyStr r.org ++ "/" ++ r.repo_name
      ++ "/contents/.gitignore"
    body := .jObj [
      ("message", .jStr ".gitignore file added"),
      ("content", .jStr (b64encode gitignore_content))] }

/-- Message printed by `Repo.add_gitignore_to_repo`: the success branch
prints the literal template string (the script omits `.format`), otherwise
the remote error message. -/
def Repo.add_gitignore_out (resp : Response) : String :=
  if resp.status = 201 then "\x7b\x7d .gitignore file added \x7b\x7d"
  else "Error Message: " ++ resp.message

/-- Branch-protection request body built by `Repo.protect_branch`: the six
optional allow-lists default to the empty list when absent (Python `None`),
alongside the fixed policy constants. -/
def Repo.protect_branch_config
    (pr_dismissal_teams pr_dismissal_users pr_bypass_teams pr_bypass_users
     restriction_bypass_teams restriction_bypass_users : Option (List String)) : JVal :=
  let dt := pr_dismissal_teams.getD []
  let du := pr_dismissal_users.getD []
  let bt := pr_bypass_teams.getD []
  let bu := pr_bypass_users.getD []
  let rt := restriction_bypass_teams.getD []
  let ru := restriction_bypass_users.getD []
  .jObj [
    ("required_status_checks", .jNull),
    ("enforce_admins", .jBool true),
    ("required_pull_request_reviews", .jObj [
      ("dismissal_restrictions", .jObj [
        ("teams", .jArr (dt.map .jStr)),
        ("users", .jArr (du.map .jStr))]),
      ("dismiss_stale_reviews", .jBool true),
      ("required_approving_review_count", .jNum 1),
      ("require_last_push_approval", .jBool true),
      ("bypass_pull_request_allowances", .jObj [
        ("teams", .jArr (bt.map .jStr)),
        ("users", .jArr (bu.map .jStr))])]),
    ("restrictions", .jObj [
      ("teams", .jArr (rt.map .jStr)),
      ("users", .jArr (ru.map .jStr))]),
    ("allow_force_pushes", .jBool false),
    ("allow_deletions", .jBool false)]

/-- Request built by `Repo.protect_branch`: PUT on the branch-protection
endpoint with the policy body. -/
def Repo.protect_branch_req (r : Repo) (branch_name : String)
    (pr_dismissal_teams pr_dismissal_users pr_bypass_teams pr_bypass_users
     restriction_bypass_teams restriction_bypass_users : Option (List String)) : Request :=
  { method := .put
    url := "https://api.github.com/repos/" ++ pyStr r.org ++ "/" ++ r.repo_name
      ++ "/branches/" ++ branch_name ++ "/protection"
    body := Repo.protect_branch_config pr_dismissal_teams pr_dismissal_users
      pr_bypass_teams pr_bypass_users restriction_bypass_teams restriction_bypass_users }

/-- Message printed by `Repo.protect_branch`: success on status 200,
otherwise the remote error message. -/
def Repo.protect_branch_out (branch_name : String) (resp : Response) : String :=
  if resp.status = 200 then branch_name ++ " branch is now protected"
  else "Error Message: " ++ resp.message

/-- Process environment as the script reads it: the optional value of the
`GITHUB_TOKEN` variable. -/
structure Env where
  github_token : Option String
deriving Repr, DecidableEq

/-- Parsed CLI arguments: `--name` and `--organization` have no default
(Python `None`), `--description` defaults to the empty string, and
`--defbranch` defaults to `main`. -/
structure Args where
  name : Option String
  organization : Option String
  description : String
  defbranch : String
deriving Repr, DecidableEq

/-- Outcome of one run of the `__main__` block: the process exit code, the
HTTP requests issued in order, and the lines printed in order (from the
`__main__` block and the `Repo` method bodies). -/
structure MainResult where
  exitCode : Nat
  requests : List Request
  prints : List String
deriving Repr

/-- The `__main__` block of the script.  The `oracle` maps the index of each
issued request to the response the remote returns for it; note that the
requests themselves never depend on responses, only the printed messages
do. -/
def mainRun (env : Env) (args : Args) (oracle : Nat → Response) : MainResult :=
  if env.github_token.isNone then
    { exitCode := 1, requests := [], prints := ["GITHUB TOKEN not in environment"] }
  else
    match args.name with
    | none => { exitCode := 1, requests := [], prints := ["Repo Name required"] }
    | some nm =>
      let repo := Repo.init args.organization nm
      let createReq := repo.create_repo_req "This is a description of the repo"
      let createOut := Repo.create_repo_out (oracle 0)
      if args.defbranch ≠ "main" then
        let renameReq := repo.rename_branch_req "main" args.defbranch
        let renameOut := Repo.rename_branch_out args.defbranch (oracle 1)
        let protectReq := repo.protect_branch_req args.defbranch
          (some ["admin-user"]) none (some ["admin-user"]) none (some ["admin-user"]) none
        let protectOut := Repo.protect_branch_out args.defbranch (oracle 2)
        let gitReq := repo.add_gitignore_req
        let gitOut := Repo.add_gitignore_out (oracle 3)
        { exitCode := 0
          requests := [createReq, renameReq, protectReq, gitReq]
          prints := ["Creating Repo", createOut, "Updating Default Branch", renameOut,
            "Updating Collaborators", "Updating Default Branch Protection",
            protectOut, gitOut] }
      else
        let protectReq := repo.protect_branch_req args.defbranch
          (some ["admin-user"]) none (some ["admin-user"]) none (some ["admin-user"]) none
        let protectOut := Repo.protect_branch_out args.defbranch (oracle 1)
        let gitReq := repo.add_gitignore_req
        let gitOut := Repo.add_gitignore_out (oracle 2)
        { exitCode := 0
          requests := [createReq, protectReq, gitReq]
          prints := ["Creating Repo", createOut,
            "Updating Collaborators", "Updating Default Branch Protection",
            protectOut, gitOut] }

/-- Lookup of a nested field path in a JSON value. -/
def JVal.getPath : JVal → List String → Option JVal
  | j, [] => some j
  | j, k :: ks =>
    match j.getField k with
    | some v => JVal.getPath v ks
    | none => none

/-- C1: for every base name supplied on the command line, the repository
name computed at construction of the provisioner equals the literal
concatenation of the fixed prefix `repo-` with the base name, and this is
the name carried in the body of the creation request, which is the first
request the pipeline issues. -/
theorem C1_repo_name_derivation (env : Env) (args : Args) (oracle : Nat → Response)
    (t N : String) (ht : env.github_token = some t) (hn : args.name = some N) :
    (Repo.init args.organization N).repo_name = "repo-" ++ N ∧
    ∃ req, (mainRun env args oracle).requests.head? = some req ∧
      req.method = Method.post ∧
      req.url = "https://api.github.com/user/repos" ∧
      req.body.getField "name" = some (.jStr ("repo-" ++ N)) := by
  refine ⟨rfl, (Repo.init args.organization N).create_repo_req "This is a description of the repo",
    ?_, rfl, rfl, rfl⟩
  unfold mainRun
  rw [ht, hn]
  by_cases hb : args.defbranch = "main" <;> simp [hb]

/-- Witness for C1 at a concrete input. -/
theorem C1_repo_name_derivation_witness :
    (Repo.init (some "acme") "demo").repo_name = "repo-" ++ "demo" ∧
    ∃ req, (mainRun ⟨some "tok"⟩ ⟨some "demo", some "acme", "", "main"⟩
        (fun _ => ⟨201, "", ""⟩)).requests.head? = some req ∧
      req.method = Method.post ∧
      req.url = "https://api.github.com/user/repos" ∧
      req.body.getField "name" = some (.jStr ("repo-" ++ "demo")) :=
  C1_repo_name_derivation ⟨some "tok"⟩ ⟨some "demo", some "acme", "", "main"⟩
    (fun _ => ⟨201, "", ""⟩) "tok" "demo" rfl rfl

/-- C2: when the `GITHUB_TOKEN` environment variable is absent, the run
exits with status 1, prints the diagnostic, and issues no request at all. -/
theorem C2_missing_token_fatal (env : Env) (args : Args) (oracle : Nat → Response)
    (h : env.github_token = none) :
    (mainRun env args oracle).exitCode = 1 ∧
    (mainRun env args oracle).requests = [] ∧
    "GITHUB TOKEN not in environment" ∈ (mainRun env args oracle).prints := by
  unfold mainRun
  rw [h]
  exact ⟨rfl, rfl, by simp⟩

/-- Witness for C2 at a concrete input. -/
theorem C2_missing_token_fatal_witness :
    (mainRun ⟨none⟩ ⟨some "demo", some "acme", "", "develop"⟩ (fun _ => ⟨201, "", ""⟩)).exitCode = 1 ∧
    (mainRun ⟨none⟩ ⟨some "demo", some "acme", "", "develop"⟩ (fun _ => ⟨201, "", ""⟩)).requests = [] ∧
    "GITHUB TOKEN not in environment" ∈
      (mainRun ⟨none⟩ ⟨some "demo", some "acme", "", "develop"⟩ (fun _ => ⟨201, "", ""⟩)).prints :=
  C2_missing_token_fatal ⟨none⟩ ⟨some "demo", some "acme", "", "develop"⟩ (fun _ => ⟨201, "", ""⟩) rfl

/-- C3: for every execution of the pipeline whose default-branch argument
differs from `main`, the requests issued are exactly, in order: one
repository creation carrying the name `repo-` plus the base name, one
branch rename from `main` to the argument, one branch protection for the
argument, and one `.gitignore` content write; and no execution of the
pipeline, whatever the environment, arguments and responses, ever issues a
PATCH request, which is the method of the default-branch-update endpoint. -/
theorem C3_pipeline_order (env env2 : Env) (args args2 : Args)
    (oracle oracle2 : Nat → Response) (t nm : String)
    (ht : env.github_token = some t) (hn : args.name = some nm)
    (hb : args.defbranch ≠ "main") :
    ((mainRun env args oracle).requests =
      [ (Repo.init args.organization nm).create_repo_req "This is a description of the repo",
        (Repo.init args.organization nm).rename_branch_req "main" args.defbranch,
        (Repo.init args.organization nm).protect_branch_req args.defbranch
          (some ["admin-user"]) none (some ["admin-user"]) none (some ["admin-user"]) none,
        (Repo.init args.organization nm).add_gitignore_req ]) ∧
    ((Repo.init args.organization nm).create_repo_req "This is a description of the repo").body.getField "name"
      = some (.jStr ("repo-" ++ nm)) ∧
    ((Repo.init args.organization nm).rename_branch_req "main" args.defbranch).body.getField "new_name"
      = some (.jStr args.defbranch) ∧
    ((Repo.init args.organization nm).add_gitignore_req).body.getField "content"
      = some (.jStr (b64encode gitignore_content)) ∧
    ((mainRun env2 args2 oracle2).requests.all fun req => req.method != Method.patch) = true ∧
    (∀ (rp : Repo) (b : String), (rp.update_default_branch_req b).method = Method.patch) := by
  refine ⟨?_, rfl, rfl, rfl, ?_, fun rp b => rfl⟩
  · unfold mainRun
    rw [ht, hn]
    simp [hb]
  · unfold mainRun
    rcases env2 with ⟨tok⟩
    rcases tok with _ | t2
    · simp
    · rcases args2 with ⟨nme, org, desc, db⟩
      rcases nme with _ | nm2
      · simp
      · by_cases hb2 : db = "main" <;>
          simp [hb2, Repo.create_repo_req, Repo.rename_branch_req, Repo.protect_branch_req,
            Repo.add_gitignore_req]

/-- Witness for C3 at the concrete input name `demo`, organization `acme`,
default branch `develop`. -/
theorem C3_pipeline_order_witness :
    ((mainRun ⟨some "tok"⟩ ⟨some "demo", some "acme", "", "develop"⟩
        (fun _ => ⟨201, "", ""⟩)).requests =
      [ (Repo.init (some "acme") "demo").create_repo_req "This is a description of the repo",
        (Repo.init (some "acme") "demo").rename_branch_req "main" "develop",
        (Repo.init (some "acme") "demo").protect_branch_req "develop"
          (some ["admin-user"]) none (some ["admin-user"]) none (some ["admin-user"]) none,
        (Repo.init (some "acme") "demo").add_gitignore_req ]) ∧
    ((Repo.init (some "acme") "demo").create_repo_req "This is a description of the repo").body.getField "name"
      = some (.jStr ("repo-" ++ "demo")) ∧
    ((Repo.init (some "acme") "demo").rename_branch_req "main" "develop").body.getField "new_name"
      = some (.jStr "develop") ∧
    ((Repo.init (some "acme") "demo").add_gitignore_req).body.getField "content"
      = some (.jStr (b64encode gitignore_content)) ∧
    ((mainRun ⟨some "tok"⟩ ⟨some "demo", some "acme", "", "develop"⟩
        (fun _ => ⟨201, "", ""⟩)).requests.all fun req => req.method != Method.patch) = true ∧
    (∀ (rp : Repo) (b : String), (rp.update_default_branch_req b).method = Method.patch) :=
  C3_pipeline_order ⟨some "tok"⟩ ⟨some "tok"⟩ ⟨some "demo", some "acme", "", "develop"⟩
    ⟨some "demo", some "acme", "", "develop"⟩ (fun _ => ⟨201, "", ""⟩) (fun _ => ⟨201, "", ""⟩)
    "tok" "demo" rfl rfl (by decide)

/-- C4: when the default-branch argument equals the literal `main`, the
pipeline issues exactly the creation, branch-protection and content-write
requests, in that order — the branch-rename step is not invoked. -/
theorem C4_main_branch_skips_rename (env : Env) (args : Args) (oracle : Nat → Response)
    (t nm : String) (ht : env.github_token = some t) (hn : args.name = some nm)
    (hb : args.defbranch = "main") :
    (mainRun env args oracle).requests =
      [ (Repo.init args.organization nm).create_repo_req "This is a description of the repo",
        (Repo.init args.organization nm).protect_branch_req "main"
          (some ["admin-user"]) none (some ["admin-user"]) none (some ["admin-user"]) none,
        (Repo.init args.organization nm).add_gitignore_req ] := by
  unfold mainRun
  rw [ht, hn]
  simp [hb]

/-- Witness for C4 at a concrete input. -/
theorem C4_main_branch_skips_rename_witness :
    (mainRun ⟨some "tok"⟩ ⟨some "demo", some "acme", "", "main"⟩ (fun _ => ⟨201, "", ""⟩)).requests =
      [ (Repo.init (some "acme") "demo").create_repo_req "This is a description of the repo",
        (Repo.init (some "acme") "demo").protect_branch_req "main"
          (some ["admin-user"]) none (some ["admin-user"]) none (some ["admin-user"]) none,
        (Repo.init (some "acme") "demo").add_gitignore_req ] :=
  C4_main_branch_skips_rename ⟨some "tok"⟩ ⟨some "demo", some "acme", "", "main"⟩
    (fun _ => ⟨201, "", ""⟩) "tok" "demo" rfl rfl rfl

/-- C5: at the input name `demo`, organization `acme`, description omitted
(so the CLI default, the empty string), the description field of the
creation request body is the hardcoded string that `__main__` passes to
`create_repo`, not the CLI-supplied description: the `--description`
option is parsed but never used. -/
theorem C5_description_is_hardcoded :
    ∃ req,
      (mainRun ⟨some "tok"⟩ ⟨some "demo", some "acme", "", "main"⟩
        (fun _ => ⟨201, "", ""⟩)).requests.head? = some req ∧
      req.body.getField "description" = some (.jStr "This is a description of the repo") ∧
      ¬ req.body.getField "description" =
          some (.jStr (Args.description ⟨some "demo", some "acme", "", "main"⟩)) := by
  refine ⟨_, rfl, rfl, ?_⟩
  intro h
  simp [JVal.getField, Repo.create_repo_req, List.lookup] at h

/-- C6: when `protect_branch` is called with none of the optional list
parameters supplied (all Python defaults, `None`), the submitted
branch-protection body carries an empty list — present, and neither null
nor absent — for each of the six fields: dismissal-restriction teams and
users, pull-request-bypass teams and users, and restriction teams and
users. -/
theorem C6_protect_defaults_empty_lists (rp : Repo) (bn : String) :
    let body := (rp.protect_branch_req bn none none none none none none).body
    body.getPath ["required_pull_request_reviews", "dismissal_restrictions", "teams"] = some (.jArr []) ∧
    body.getPath ["required_pull_request_reviews", "dismissal_restrictions", "users"] = some (.jArr []) ∧
    body.getPath ["required_pull_request_reviews", "bypass_pull_request_allowances", "teams"] = some (.jArr []) ∧
    body.getPath ["required_pull_request_reviews", "bypass_pull_request_allowances", "users"] = some (.jArr []) ∧
    body.getPath ["restrictions", "teams"] = some (.jArr []) ∧
    body.getPath ["restrictions", "users"] = some (.jArr []) :=
  ⟨rfl, rfl, rfl, rfl, rfl, rfl⟩

/-- C7: the content string transmitted in the ignore-file request is the
base64 encoding of the fixed payload, and decoding it with the inverse of
base64 yields exactly the six-line ignore text. -/
theorem C7_gitignore_payload_roundtrip (rp : Repo) :
    (rp.add_gitignore_req).body.getField "content" = some (.jStr (b64encode gitignore_content)) ∧
    b64decodeToString (b64encode gitignore_content) =
      ".terraform\n.terraform.tfstate\n*.tfstate*\n*.zip*\n.idea\n.secret.auto.tfvars" :=
  ⟨rfl, by decide⟩

/-- C8: every invocation of `protect_branch`, whatever the optional lists,
submits a policy with the fixed constants: required status checks null,
enforcement for admins on, one required approving review, stale reviews
dismissed, last-push approval required, and force-pushes and deletions
disallowed. -/
theorem C8_protect_policy_constants (rp : Repo) (bn : String)
    (a b c d e f : Option (List String)) :
    let body := (rp.protect_branch_req bn a b c d e f).body
    body.getField "required_status_checks" = some .jNull ∧
    body.getField "enforce_admins" = some (.jBool true) ∧
    body.getPath ["required_pull_request_reviews", "required_approving_review_count"] = some (.jNum 1) ∧
    body.getPath ["required_pull_request_reviews", "dismiss_stale_reviews"] = some (.jBool true) ∧
    body.getPath ["required_pull_request_reviews", "require_last_push_approval"] = some (.jBool true) ∧
    body.getField "allow_force_pushes" = some (.jBool false) ∧
    body.getField "allow_deletions" = some (.jBool false) :=
  ⟨rfl, rfl, rfl, rfl, rfl, rfl, rfl⟩

/-- C9: remote failures are non-fatal.  Whenever the token and name
preconditions hold, the run exits with status 0 and issues every pipeline
request (three when the default branch is `main`, four otherwise),
whatever statuses the remote returns; and every step that fails — creation,
rename, protection or content write, at their respective positions in each
branch shape — has its error message printed. -/
theorem C9_remote_failures_nonfatal (env : Env) (args : Args) (oracle : Nat → Response)
    (t nm : String) (ht : env.github_token = some t) (hn : args.name = some nm) :
    (mainRun env args oracle).exitCode = 0 ∧
    (mainRun env args oracle).requests.length = (if args.defbranch = "main" then 3 else 4) ∧
    ((oracle 0).status ≠ 201 →
      ("Create repo error Message: " ++ (oracle 0).message) ∈ (mainRun env args oracle).prints) ∧
    (args.defbranch = "main" →
      ((oracle 1).status ≠ 200 →
        ("Error Message: " ++ (oracle 1).message) ∈ (mainRun env args oracle).prints) ∧
      ((oracle 2).status ≠ 201 →
        ("Error Message: " ++ (oracle 2).message) ∈ (mainRun env args oracle).prints)) ∧
    (args.defbranch ≠ "main" →
      ((oracle 1).status ≠ 201 →
        ("Error Message: " ++ (oracle 1).message) ∈ (mainRun env args oracle).prints) ∧
      ((oracle 2).status ≠ 200 →
        ("Error Message: " ++ (oracle 2).message) ∈ (mainRun env args oracle).prints) ∧
      ((oracle 3).status ≠ 201 →
        ("Error Message: " ++ (oracle 3).message) ∈ (mainRun env args oracle).prints)) := by
  unfold mainRun
  rw [ht, hn]
  by_cases hb : args.defbranch = "main"
  · refine ⟨by simp [hb], by simp [hb], ?_, fun _ => ⟨?_, ?_⟩, fun h => absurd hb h⟩
    · intro hs
      simp [hb, Repo.create_repo_out, hs]
    · intro hs
      simp [hb, Repo.protect_branch_out, hs]
    · intro hs
      simp [hb, Repo.add_gitignore_out, hs]
  · refine ⟨by simp [hb], by simp [hb], ?_, fun h => absurd h hb, fun _ => ⟨?_, ?_, ?_⟩⟩
    · intro hs
      simp [hb, Repo.create_repo_out, hs]
    · intro hs
      simp [hb, Repo.rename_branch_out, hs]
    · intro hs
      simp [hb, Repo.protect_branch_out, hs]
    · intro hs
      simp [hb, Repo.add_gitignore_out, hs]

/-- Witness for C9 at a concrete input with default branch `develop` where
every remote call fails with status 500: the run exits 0, issues all four
requests, and prints the creation and rename error messages. -/
theorem C9_remote_failures_nonfatal_witness :
    (mainRun ⟨some "tok"⟩ ⟨some "demo", some "acme", "", "develop"⟩
      (fun _ => ⟨500, "boom", ""⟩)).exitCode = 0 ∧
    (mainRun ⟨some "tok"⟩ ⟨some "demo", some "acme", "", "develop"⟩
      (fun _ => ⟨500, "boom", ""⟩)).requests.length = 4 ∧
    ("Create repo error Message: " ++ "boom") ∈
      (mainRun ⟨some "tok"⟩ ⟨some "demo", some "acme", "", "develop"⟩
        (fun _ => ⟨500, "boom", ""⟩)).prints ∧
    ("Error Message: " ++ "boom") ∈
      (mainRun ⟨some "tok"⟩ ⟨some "demo", some "acme", "", "develop"⟩
        (fun _ => ⟨500, "boom", ""⟩)).prints := by
  have h := C9_remote_failures_nonfatal ⟨some "tok"⟩ ⟨some "demo", some "acme", "", "develop"⟩
    (fun _ => ⟨500, "boom", ""⟩) "tok" "demo" rfl rfl
  have h5 := h.2.2.2.2 (by decide)
  exact ⟨h.1, by rw [h.2.1]; decide, h.2.2.1 (by decide), h5.1 (by decide)⟩

/-- Helper for C10: the "added" message and the "already has" message can
never coincide, whatever the username and permission, since their fixed
parts differ in length. -/
theorem collaborator_added_ne_already (u p : String) :
    u ++ " added to repo with permission: " ++ p ≠
      u ++ " already has " ++ p ++ " permissions" := by
  intro hEq
  have hlen := congrArg String.length hEq
  have a1 : (" added to repo with permission: " : String).length = 32 := by decide
  have a2 : (" already has " : String).length = 13 := by decide
  have a3 : (" permissions" : String).length = 12 := by decide
  simp only [String.length_append, a1, a2, a3] at hlen
  omega

/-- C10: `add_repo_collaborator` distinguishes exactly three outcomes —
status 200 is reported as the user added with the permission, status 204 as
the user already holding it (a distinct message), and anything else as an
error carrying the remote message — so two identical calls answered 200
then 204 produce the two distinct messages in that order. -/
theorem C10_collaborator_outcomes (u p : String) (r1 r2 r3 : Response)
    (h1 : r1.status = 200) (h2 : r2.status = 204)
    (h3a : r3.status ≠ 200) (h3b : r3.status ≠ 204) :
    [Repo.add_repo_collaborator_out u p r1, Repo.add_repo_collaborator_out u p r2] =
      [u ++ " added to repo with permission: " ++ p,
       u ++ " already has " ++ p ++ " permissions"] ∧
    Repo.add_repo_collaborator_out u p r3 = "Error Message: " ++ r3.message ∧
    Repo.add_repo_collaborator_out u p r1 ≠ Repo.add_repo_collaborator_out u p r2 := by
  have e1 : Repo.add_repo_collaborator_out u p r1 = u ++ " added to repo with permission: " ++ p := by
    simp [Repo.add_repo_collaborator_out, h1]
  have e2 : Repo.add_repo_collaborator_out u p r2 = u ++ " already has " ++ p ++ " permissions" := by
    simp [Repo.add_repo_collaborator_out, h2]
  refine ⟨by rw [e1, e2], by simp [Repo.add_repo_collaborator_out, h3a, h3b], ?_⟩
  rw [e1, e2]
  exact collaborator_added_ne_already u p

/-- Witness for C10 at concrete responses with statuses 200, 204 and 500. -/
theorem C10_collaborator_outcomes_witness :
    [Repo.add_repo_collaborator_out "alice" "admin" ⟨200, "", ""⟩,
     Repo.add_repo_collaborator_out "alice" "admin" ⟨204, "", ""⟩] =
      ["alice" ++ " added to repo with permission: " ++ "admin",
       "alice" ++ " already has " ++ "admin" ++ " permissions"] ∧
    Repo.add_repo_collaborator_out "alice" "admin" ⟨500, "oops", ""⟩ = "Error Message: " ++ "oops" ∧
    Repo.add_repo_collaborator_out "alice" "admin" ⟨200, "", ""⟩ ≠
      Repo.add_repo_collaborator_out "alice" "admin" ⟨204, "", ""⟩ :=
  C10_collaborator_outcomes "alice" "admin" ⟨200, "", ""⟩ ⟨204, "", ""⟩ ⟨500, "oops", ""⟩
    rfl rfl (by decide) (by decide)
